import Mathlib

/-!
Verification of the embroidery digitizing pipeline (appwrite-functions/lib):
image_preprocess.py, shape_analyzer.py, stitch_planner.py, stitch_generator.py.

The Python modules are shallowly embedded below.  Real-valued quantities are
modelled over the rationals: the source computes with IEEE doubles, and the
rational model performs the same arithmetic exactly.  The transcendental
library routines are modelled by rational stand-ins that agree with the float
routines on the arguments used in the concrete instances proved here:
sqrtQ is exact on perfect squares of rationals, qpi is the double value of
math.pi, and qcos/qsin are Taylor truncations that are exact at 0 (the only
angle evaluated concretely).  Python int() truncates toward zero (pyInt), and
the float modulo of a positive modulus is pyMod.
-/

/-- Coordinates as they flow through the planner and generator
(numpy float64 arrays, modelled by exact rationals). -/
abbrev Point := ℚ × ℚ

/-- Integer pixel coordinates as produced by cv2.findContours (int32). -/
abbrev IPoint := ℤ × ℤ

/-- Python int() applied to a float: truncation toward zero. -/
def pyInt (q : ℚ) : ℤ := if 0 ≤ q then ⌊q⌋ else ⌈q⌉

/-- Python float modulo x % m (sign follows the modulus; the source only
takes a float modulus of 180, which is positive). -/
def pyMod (x m : ℚ) : ℚ := x - m * ⌊x / m⌋

/-- The IEEE double value of math.pi, as an exact rational. -/
def qpi : ℚ := 884279719003555 / 281474976710656

/-- math.radians: degrees to radians, x * pi / 180. -/
def qradians (x : ℚ) : ℚ := x * qpi / 180

/-- Rational stand-in for math.cos (Taylor truncation, exact at 0). -/
def qcos (x : ℚ) : ℚ := 1 - x ^ 2 / 2 + x ^ 4 / 24

/-- Rational stand-in for math.sin (Taylor truncation, exact at 0). -/
def qsin (x : ℚ) : ℚ := x - x ^ 3 / 6 + x ^ 5 / 120

/-- Rational stand-in for math.sqrt / np.linalg.norm: exact whenever the
argument is the square of a rational, which covers every concrete instance
evaluated in this development. -/
def sqrtQ (q : ℚ) : ℚ :=
  if q ≤ 0 then 0 else (Nat.sqrt q.num.toNat : ℚ) / (Nat.sqrt q.den : ℚ)

/-- Euclidean distance between two points, sqrt(dx*dx + dy*dy). -/
def qdist (p q : Point) : ℚ :=
  sqrtQ ((q.1 - p.1) * (q.1 - p.1) + (q.2 - p.2) * (q.2 - p.2))

/-- The list of consecutive cyclic pairs (p_i, p_(i+1 mod n)) of a closed
contour, the traversal order used by cv2.arcLength, cv2.contourArea and
find_scanline_intersections. -/
def cyclicPairs {α : Type} : List α → List (α × α)
  | [] => []
  | x :: xs => (x :: xs).zip (xs ++ [x])

/-- Minimum of a list (np.min); 0 on the empty list, which never occurs in
the guarded call sites. -/
def listMin (l : List ℚ) : ℚ :=
  match l with
  | [] => 0
  | x :: xs => xs.foldl min x

/-- Maximum of a list (np.max); 0 on the empty list. -/
def listMax (l : List ℚ) : ℚ :=
  match l with
  | [] => 0
  | x :: xs => xs.foldl max x

/-! ## shape_analyzer.py -/

/-- MIN_AREA_MM2 (shape_analyzer.py line 28). -/
def MIN_AREA_MM2 : ℚ := 2

/-- MIN_PERIMETER_MM (shape_analyzer.py line 29, "Ignore very short
contours").  Note: this constant is never read by extract_regions. -/
def MIN_PERIMETER_MM : ℚ := 3

/-- OUTLINE_COMPACTNESS (shape_analyzer.py line 30). -/
def OUTLINE_COMPACTNESS : ℚ := 1 / 10

/-- OUTLINE_ASPECT_RATIO in the source (shape_analyzer.py line 31). -/
def OUTLINE_ASPECT_BOUND : ℚ := 8

/-- DETAIL_AREA_MM2 (shape_analyzer.py line 32). -/
def DETAIL_AREA_MM2 : ℚ := 5

/-- cv2.contourArea: half the absolute value of the shoelace sum. -/
def contourArea (contour : List IPoint) : ℚ :=
  (|((cyclicPairs contour).map (fun pq => pq.1.1 * pq.2.2 - pq.2.1 * pq.1.2)).sum| : ℤ) / 2

/-- cv2.arcLength with closed=True: the cyclic sum of edge lengths. -/
def arcLength (contour : List IPoint) : ℚ :=
  ((cyclicPairs contour).map
    (fun pq => qdist ((pq.1.1 : ℚ), (pq.1.2 : ℚ)) ((pq.2.1 : ℚ), (pq.2.2 : ℚ)))).sum

/-- cv2.boundingRect on an integer contour: (min x, min y, width, height)
with width = max x - min x + 1 and height likewise. -/
def boundingRect (contour : List IPoint) : ℤ × ℤ × ℤ × ℤ :=
  match contour with
  | [] => (0, 0, 0, 0)
  | p :: ps =>
    let minX := ps.foldl (fun a q => min a q.1) p.1
    let maxX := ps.foldl (fun a q => max a q.1) p.1
    let minY := ps.foldl (fun a q => min a q.2) p.2
    let maxY := ps.foldl (fun a q => max a q.2) p.2
    (minX, minY, maxX - minX + 1, maxY - minY + 1)

/-- classify_region (shape_analyzer.py lines 240-266).  The perimeter
argument is accepted but not used, exactly as in the source. -/
def classify_region (area_mm2 perimeter_mm compactness aspect : ℚ) : String :=
  if compactness < OUTLINE_COMPACTNESS then "outline"
  else if aspect > OUTLINE_ASPECT_BOUND then "outline"
  else if area_mm2 < DETAIL_AREA_MM2 then "detail"
  else "fill"

/-- The classification path of create_region_from_contour
(shape_analyzer.py lines 186-219): area, perimeter, bounding box, aspect
ratio (width / max(height, 1)) and compactness are computed exactly as in
the source and fed to classify_region.  The centroid and principal angle of
the source function are not modelled here because classify_region does not
read them. -/
def region_type_from_contour (contour : List IPoint) (pixels_per_mm : ℚ) : String :=
  let px_per_mm2 := pixels_per_mm ^ 2
  let area_px := contourArea contour
  let perimeter_px := arcLength contour
  let area_mm2 := area_px / px_per_mm2
  let perimeter_mm := perimeter_px / pixels_per_mm
  let r := boundingRect contour
  let w := r.2.2.1
  let h := r.2.2.2
  let aspect := (w : ℚ) / ((max h 1 : ℤ) : ℚ)
  let compactness := if perimeter_px > 0 then 4 * qpi * area_px / perimeter_px ^ 2 else 0
  classify_region area_mm2 perimeter_mm compactness aspect

/-- The per-contour size filters of extract_regions (shape_analyzer.py
lines 128-134): a contour is dropped when its pixel area is below
min_area_mm2 * pixels_per_mm^2, or when its pixel perimeter is below
min_area_mm2 * pixels_per_mm.  Note that the second comparison uses
min_area_mm2 where the declared MIN_PERIMETER_MM constant was evidently
intended. -/
def contour_passes_size_filters (contour : List IPoint)
    (min_area_mm2 pixels_per_mm : ℚ) : Bool :=
  let min_area_px := min_area_mm2 * pixels_per_mm ^ 2
  if contourArea contour < min_area_px then false
  else if arcLength contour < min_area_mm2 * pixels_per_mm then false
  else true

/-! ### Helper lemmas for the rational square root -/

theorem sqrtQ_mul_self (a : ℚ) : sqrtQ (a * a) = |a| := by
  rcases eq_or_ne a 0 with rfl | ha
  · simp [sqrtQ]
  · have hpos : 0 < a * a := mul_self_pos.mpr ha
    rw [sqrtQ, if_neg (not_le.mpr hpos)]
    have hnum : (a * a).num = a.num * a.num := Rat.mul_self_num a
    have hden : (a * a).den = a.den * a.den := Rat.mul_self_den a
    have hnum' : (a * a).num.toNat = a.num.natAbs * a.num.natAbs := by
      rw [hnum, ← Int.natAbs_mul_self, Int.toNat_natCast]
    rw [hnum', hden, Nat.sqrt_eq, Nat.sqrt_eq]
    have h1 : ((a.num.natAbs : ℚ)) = |((a.num : ℤ) : ℚ)| := by
      push_cast [Int.cast_natAbs]
      ring
    have h2 : |a| = |((a.num : ℤ) : ℚ)| / ((a.den : ℕ) : ℚ) := by
      conv_lhs => rw [← Rat.num_div_den a]
      rw [abs_div, abs_of_nonneg (show (0:ℚ) ≤ ((a.den : ℕ) : ℚ) by positivity)]
    rw [h1, h2]

theorem sqrtQ_eval (a b : ℚ) (hb : 0 ≤ b) (h : b * b = a) : sqrtQ a = b := by
  rw [← h, sqrtQ_mul_self, abs_of_nonneg hb]

/-! ## stitch_planner.py -/

/-- StitchType (stitch_planner.py lines 23-29). -/
inductive StitchType where
  | fill
  | outline
  | satin
  | detail
  | underlay
deriving DecidableEq, Repr

/-- QualityPreset (stitch_planner.py lines 32-36). -/
inductive QualityPreset where
  | fast
  | balanced
  | quality
deriving DecidableEq, Repr

/-- QualityPreset(value): the enum constructor, None modelling ValueError. -/
def QualityPreset.ofString (s : String) : Option QualityPreset :=
  if s = "fast" then some .fast
  else if s = "balanced" then some .balanced
  else if s = "quality" then some .quality
  else none

/-- PP1_DEFAULTS (stitch_planner.py lines 40-53). -/
structure PP1Defaults where
  fill_density : ℚ
  outline_density : ℚ
  bean_stitch_repeat : ℕ
  stitch_length_target : ℚ
  stitch_length_min : ℚ
  stitch_length_max : ℚ
  underlay_threshold_mm2 : ℚ
  underlay_density_factor : ℚ
  underlay_angle_offset : ℚ
  max_recommended_stitches : ℤ
  max_stitches_hard_limit : ℤ
  sewing_speed_stitches_per_min : ℚ

/-- The PP1_DEFAULTS values.  underlay_density_factor is the source key
underlay_density_ratio. -/
def PP1_DEFAULTS : PP1Defaults :=
  { fill_density := 5
    outline_density := 1 / 2
    bean_stitch_repeat := 3
    stitch_length_target := 2
    stitch_length_min := 1
    stitch_length_max := 7 / 2
    underlay_threshold_mm2 := 50
    underlay_density_factor := 1 / 2
    underlay_angle_offset := 90
    max_recommended_stitches := 15000
    max_stitches_hard_limit := 20000
    sewing_speed_stitches_per_min := 400 }

/-- QUALITY_MULTIPLIERS density entries (stitch_planner.py lines 56-69). -/
def presetDensity : QualityPreset → ℚ
  | .fast => 8 / 10
  | .balanced => 1
  | .quality => 12 / 10

/-- QUALITY_MULTIPLIERS underlay entries (stitch_planner.py lines 56-69). -/
def presetUnderlay : QualityPreset → Bool
  | .fast => false
  | .balanced => true
  | .quality => true

/-- Region (shape_analyzer.py lines 39-57).  The aspect field is the
source field aspect_ratio (bounding-box width / height). -/
structure Region where
  color_hex : String
  color_rgb : ℕ × ℕ × ℕ
  region_type : String
  contours : List (List Point)
  holes : List (List Point)
  area_mm2 : ℚ
  perimeter_mm : ℚ
  principal_angle : ℚ
  bounding_box : ℤ × ℤ × ℤ × ℤ
  aspect : ℚ
  compactness : ℚ
  centroid : Point

/-- StitchOperation (stitch_planner.py lines 72-87). -/
structure StitchOperation where
  stitch_type : StitchType
  region : Region
  contour : List Point
  angle : ℚ
  density : ℚ
  stitch_length : ℚ
  estimated_stitches : ℤ
  is_under : Bool

/-- StitchLayer (stitch_planner.py lines 90-102). -/
structure StitchLayer where
  color_hex : String
  color_rgb : ℕ × ℕ × ℕ
  thread_number : Option String
  thread_name : Option String
  operations : List StitchOperation
  estimated_stitches : ℤ

/-- StitchLayer.add_operation (stitch_planner.py lines 104-107). -/
def StitchLayer.add_operation (l : StitchLayer) (op : StitchOperation) : StitchLayer :=
  { l with operations := l.operations ++ [op],
           estimated_stitches := l.estimated_stitches + op.estimated_stitches }

/-- The advisory warnings a StitchPlan can carry.  The source stores
formatted strings; each constructor records the number interpolated into
the message. -/
inductive Warning where
  | stitchHard (total : ℤ)
  | stitchSoft (total : ℤ)
  | manyColors (n : ℕ)
deriving DecidableEq, Repr

/-- True exactly for the hard stitch-limit warning. -/
def Warning.isHard : Warning → Bool
  | .stitchHard _ => true
  | _ => false

/-- True exactly for the soft (recommended) stitch-count warning. -/
def Warning.isSoft : Warning → Bool
  | .stitchSoft _ => true
  | _ => false

/-- True exactly for the thread-color-count warning. -/
def Warning.isColors : Warning → Bool
  | .manyColors _ => true
  | _ => false

/-- StitchPlan (stitch_planner.py lines 110-122). -/
structure StitchPlan where
  layers : List StitchLayer
  total_stitches : ℤ
  estimated_time_minutes : ℚ
  quality_preset : String
  hoop_size : String
  warnings : List Warning

/-- StitchPlan.add_layer (stitch_planner.py lines 124-127). -/
def StitchPlan.add_layer (p : StitchPlan) (layer : StitchLayer) : StitchPlan :=
  { p with layers := p.layers ++ [layer],
           total_stitches := p.total_stitches + layer.estimated_stitches }

/-- StitchPlan._validate (stitch_planner.py lines 137-154). -/
def StitchPlan.validate (p : StitchPlan) : StitchPlan :=
  let p1 :=
    if p.total_stitches > PP1_DEFAULTS.max_stitches_hard_limit then
      { p with warnings := p.warnings ++ [Warning.stitchHard p.total_stitches] }
    else if p.total_stitches > PP1_DEFAULTS.max_recommended_stitches then
      { p with warnings := p.warnings ++ [Warning.stitchSoft p.total_stitches] }
    else p
  if p1.layers.length > 10 then
    { p1 with warnings := p1.warnings ++ [Warning.manyColors p1.layers.length] }
  else p1

/-- StitchPlan.finalize (stitch_planner.py lines 129-135). -/
def StitchPlan.finalize (p : StitchPlan) : StitchPlan :=
  let total := (p.layers.map StitchLayer.estimated_stitches).sum
  let p' := { p with total_stitches := total,
                     estimated_time_minutes :=
                       (total : ℚ) / PP1_DEFAULTS.sewing_speed_stitches_per_min }
  p'.validate

/-- estimate_fill_stitches (stitch_planner.py lines 349-365). -/
def estimate_fill_stitches (area_mm2 density : ℚ) : ℤ :=
  let sqrt_area := sqrtQ area_mm2
  let num_scanlines := sqrt_area * density
  let avg_scanline_stitches := sqrt_area / PP1_DEFAULTS.stitch_length_target
  pyInt (num_scanlines * avg_scanline_stitches)

/-- create_fill_operation (stitch_planner.py lines 284-302). -/
def create_fill_operation (region : Region) (density : ℚ) : StitchOperation :=
  { stitch_type := .fill
    region := region
    contour := region.contours.headD []
    angle := region.principal_angle
    density := density
    stitch_length := PP1_DEFAULTS.stitch_length_target
    estimated_stitches := estimate_fill_stitches region.area_mm2 density
    is_under := false }

/-- create_outline_operation (stitch_planner.py lines 305-323). -/
def create_outline_operation (region : Region) : StitchOperation :=
  { stitch_type := .outline
    region := region
    contour := region.contours.headD []
    angle := 0
    density := PP1_DEFAULTS.outline_density
    stitch_length := PP1_DEFAULTS.stitch_length_target
    estimated_stitches :=
      pyInt (region.perimeter_mm / PP1_DEFAULTS.stitch_length_target
              * (PP1_DEFAULTS.bean_stitch_repeat : ℚ))
    is_under := false }

/-- create_underlay_operation (stitch_planner.py lines 326-346). -/
def create_underlay_operation (region : Region) (base_density : ℚ) : StitchOperation :=
  let underlay_density := base_density * PP1_DEFAULTS.underlay_density_factor
  let underlay_angle :=
    pyMod (region.principal_angle + PP1_DEFAULTS.underlay_angle_offset) 180
  { stitch_type := .underlay
    region := region
    contour := region.contours.headD []
    angle := underlay_angle
    density := underlay_density
    stitch_length := PP1_DEFAULTS.stitch_length_max
    estimated_stitches := estimate_fill_stitches region.area_mm2 underlay_density
    is_under := true }

/-- plan_region_operations (stitch_planner.py lines 233-281). -/
def plan_region_operations (region : Region) (density_multiplier : ℚ)
    (use_underlay : Bool) : List StitchOperation :=
  let base_fill_density := PP1_DEFAULTS.fill_density * density_multiplier
  if region.region_type = "fill" then
    (if use_underlay ∧ region.area_mm2 > PP1_DEFAULTS.underlay_threshold_mm2 then
       [create_underlay_operation region base_fill_density]
     else [])
    ++ [create_fill_operation region base_fill_density,
        create_outline_operation region]
  else if region.region_type = "outline" then
    [create_outline_operation region]
  else if region.region_type = "detail" then
    [create_fill_operation region (base_fill_density * (8 / 10)),
     create_outline_operation region]
  else []

/-- Grouping of regions by color_hex with first-encounter order, modelling
the insertion-ordered dict built in plan_stitches (lines 193-198). -/
def groupByColor (regions : List Region) : List (String × List Region) :=
  regions.foldl
    (fun acc r =>
      if acc.any (fun g => g.1 = r.color_hex) then
        acc.map (fun g => if g.1 = r.color_hex then (g.1, g.2 ++ [r]) else g)
      else acc ++ [(r.color_hex, [r])])
    []

/-- Thread info drawn from the optional thread_mappings dict:
(threadNumber, threadName). -/
abbrev ThreadInfo := Option String × Option String

/-- The layer built for one color group in plan_stitches (lines 207-224):
fold add_operation over the operations of every region of that color. -/
def buildLayer (color_hex : String) (color_regions : List Region)
    (thread_mappings : Option (List (String × ThreadInfo)))
    (effective_density : ℚ) (use_underlay : Bool) : StitchLayer :=
  let thread_info : ThreadInfo :=
    match thread_mappings with
    | some tm => ((tm.lookup color_hex).getD (none, none))
    | none => (none, none)
  let layer0 : StitchLayer :=
    { color_hex := color_hex
      color_rgb := (color_regions.headD
        { color_hex := "", color_rgb := (0, 0, 0), region_type := "",
          contours := [], holes := [], area_mm2 := 0, perimeter_mm := 0,
          principal_angle := 0, bounding_box := (0, 0, 0, 0), aspect := 1,
          compactness := 1, centroid := (0, 0) }).color_rgb
      thread_number := thread_info.1
      thread_name := thread_info.2
      operations := []
      estimated_stitches := 0 }
  color_regions.foldl
    (fun ly r =>
      (plan_region_operations r effective_density use_underlay).foldl
        StitchLayer.add_operation ly)
    layer0

/-- The body of the per-color loop of plan_stitches (lines 207-227): build
the layer for one color group and add it to the plan when it has
operations. -/
def planFoldStep (tm : Option (List (String × ThreadInfo))) (d : ℚ) (u : Bool)
    (plan : StitchPlan) (g : String × List Region) : StitchPlan :=
  let layer := buildLayer g.1 g.2 tm d u
  if layer.operations.isEmpty then plan else plan.add_layer layer

/-- plan_stitches (stitch_planner.py lines 157-230). -/
def plan_stitches (regions : List Region) (hoop_size quality_preset : String)
    (density_multiplier : ℚ)
    (thread_mappings : Option (List (String × ThreadInfo))) : StitchPlan :=
  let preset := (QualityPreset.ofString quality_preset).getD .balanced
  let effective_density := presetDensity preset * density_multiplier
  let use_underlay := presetUnderlay preset
  let by_color := groupByColor regions
  let plan0 : StitchPlan :=
    { layers := [], total_stitches := 0, estimated_time_minutes := 0,
      quality_preset := quality_preset, hoop_size := hoop_size, warnings := [] }
  let plan :=
    by_color.foldl (planFoldStep thread_mappings effective_density use_underlay) plan0
  plan.finalize

/-! ## stitch_generator.py -/

/-- UNITS_PER_MM (stitch_generator.py line 34): 10 embroidery units per mm. -/
def UNITS_PER_MM : ℚ := 10

/-- STITCH_LENGTH_MAX_MM (stitch_generator.py line 30). -/
def STITCH_LENGTH_MAX_MM : ℚ := 7 / 2

/-- Conversion of a pixel point to integer embroidery units with the center
offset applied: int((x - off) * UNITS_PER_MM / pixels_per_mm), as written in
generate_fill_stitches and generate_outline_stitches. -/
def toEmb (pixels_per_mm : ℚ) (off : Point) (p : Point) : ℤ × ℤ :=
  (pyInt ((p.1 - off.1) * UNITS_PER_MM / pixels_per_mm),
   pyInt ((p.2 - off.2) * UNITS_PER_MM / pixels_per_mm))

/-- rotate_points (stitch_generator.py lines 286-300), applied to a single
point: rotate by angle_rad about center. -/
def rotate_point (center : Point) (angle_rad : ℚ) (p : Point) : Point :=
  let cos_a := qcos angle_rad
  let sin_a := qsin angle_rad
  let cx := p.1 - center.1
  let cy := p.2 - center.2
  (cx * cos_a - cy * sin_a + center.1, cx * sin_a + cy * cos_a + center.2)

/-- np.mean(points, axis=0): the componentwise mean of a point list. -/
def meanPoint (pts : List Point) : Point :=
  (((pts.map Prod.fst).sum) / (pts.length : ℚ),
   ((pts.map Prod.snd).sum) / (pts.length : ℚ))

/-- find_scanline_intersections (stitch_generator.py lines 303-323): the x
coordinates where the horizontal line at height y crosses the edges of the
closed contour. -/
def find_scanline_intersections (contour : List Point) (y : ℚ) : List ℚ :=
  (cyclicPairs contour).filterMap
    (fun pq =>
      let p1 := pq.1
      let p2 := pq.2
      if (p1.2 ≤ y ∧ y < p2.2) ∨ (p2.2 ≤ y ∧ y < p1.2) then
        if p2.2 ≠ p1.2 then
          some (p1.1 + (y - p1.2) / (p2.2 - p1.2) * (p2.1 - p1.1))
        else none
      else none)

/-- Insertion into a sorted list, the building block of sortAsc. -/
def insertSorted (x : ℚ) : List ℚ → List ℚ
  | [] => [x]
  | y :: ys => if x ≤ y then x :: y :: ys else y :: insertSorted x ys

/-- Ascending sort, modelling Python list.sort() on the intersection list.
Sorting rationals ascending yields a unique list, so any correct sort
coincides with the source sort. -/
def sortAsc (l : List ℚ) : List ℚ := l.foldr insertSorted []

/-- The enter/exit pairing loop in generate_fill_stitches (lines 204-206):
for i in range(0, len(s) - 1, 2) take (s[i], s[i+1]); a trailing unpaired
crossing is dropped. -/
def pairsOf : List ℚ → List (ℚ × ℚ)
  | a :: b :: rest => (a, b) :: pairsOf rest
  | _ => []

/-- The number of iterations of the scanline while-loop of
generate_fill_stitches (lines 194-217): y starts at min_y + spacing/2 and
advances by spacing while y ≤ max_y.  For spacing ≤ 0 the source loop would
either run zero times or fail to terminate; it is modelled as zero
iterations, and every claim about fills assumes a positive density. -/
def numScanlines (min_y max_y spacing : ℚ) : ℕ :=
  if 0 < spacing then
    if min_y + spacing / 2 ≤ max_y then
      (⌊(max_y - (min_y + spacing / 2)) / spacing⌋ + 1).toNat
    else 0
  else 0

/-- generate_line_stitches (stitch_generator.py lines 326-353). -/
def generate_line_stitches (x1 y1 x2 y2 stitch_length_px : ℚ)
    (direction : ℤ) : List Point :=
  let dx := x2 - x1
  let dy := y2 - y1
  let length := sqrtQ (dx * dx + dy * dy)
  if length < stitch_length_px / 2 then [(x1, y1), (x2, y2)]
  else
    let num_stitches : ℕ := max 2 (pyInt (length / stitch_length_px) + 1).toNat
    (List.range num_stitches).map
      (fun (i : ℕ) =>
        let t : ℚ := if 1 < num_stitches then (i : ℚ) / ((num_stitches : ℚ) - 1) else 0
        let t := if direction < 0 then 1 - t else t
        (x1 + t * dx, y1 + t * dy))

/-- generate_fill_stitches (stitch_generator.py lines 145-234).  The
while-loop over scanlines is replaced by its iteration sequence: scanline k
sits at min_y + spacing/2 + k*spacing and the direction alternates starting
from 1, exactly as the loop computes. -/
def generate_fill_stitches (contour : List Point) (angle density stitch_length
    pixels_per_mm : ℚ) (center_offset : Point) : List (ℤ × ℤ) :=
  match contour with
  | [] => []
  | _ =>
    let points := contour
    if points.length < 3 then []
    else
      let line_spacing_px := pixels_per_mm / density
      let angle_rad := qradians (-angle)
      let center := meanPoint points
      let rotated := points.map (rotate_point center angle_rad)
      let min_y := listMin (rotated.map Prod.snd)
      let max_y := listMax (rotated.map Prod.snd)
      let n := numScanlines min_y max_y line_spacing_px
      let stitches_rotated :=
        ((List.range n).map
          (fun (k : ℕ) =>
            let y := min_y + line_spacing_px / 2 + (k : ℚ) * line_spacing_px
            let direction : ℤ := if k % 2 = 0 then 1 else -1
            let intersections := find_scanline_intersections rotated y
            if 2 ≤ intersections.length then
              ((pairsOf (sortAsc intersections)).map
                (fun se =>
                  generate_line_stitches se.1 y se.2 y
                    (stitch_length * pixels_per_mm) direction)).flatten
            else [])).flatten
      if stitches_rotated.isEmpty then []
      else
        ((stitches_rotated.map (rotate_point center (-angle_rad))).map
          (toEmb pixels_per_mm center_offset))

/-- The inner while-loop of subdivide_contour (stitch_generator.py lines
394-400): walk next_target through the current segment, appending an
interpolated point while next_target < accumulated + seg and the result
still has fewer than num_points entries. -/
def subdivideInner (p1 p2 : Point) (seg spacing accumulated : ℚ)
    (num_points : ℕ) (next_target : ℚ) (result : List Point) : ℚ × List Point :=
  if h : next_target < accumulated + seg ∧ result.length < num_points then
    let t : ℚ := if 0 < seg then (next_target - accumulated) / seg else 0
    let t := max 0 (min 1 t)
    subdivideInner p1 p2 seg spacing accumulated num_points (next_target + spacing)
      (result ++ [(p1.1 + t * (p2.1 - p1.1), p1.2 + t * (p2.2 - p1.2))])
  else (next_target, result)
termination_by num_points - result.length
decreasing_by
  simp only [List.length_append, List.length_cons, List.length_nil]
  omega

/-- The outer while-loop of subdivide_contour (stitch_generator.py lines
389-403): advance segment by segment while points remain and the result has
fewer than num_points entries. -/
def subdivideOuter (pts : List Point) (spacing accumulated : ℚ)
    (num_points : ℕ) (next_target : ℚ) (result : List Point) : List Point :=
  match pts with
  | p1 :: p2 :: rest =>
    if result.length < num_points then
      let seg := qdist p1 p2
      let r := subdivideInner p1 p2 seg spacing accumulated num_points
                  next_target result
      subdivideOuter (p2 :: rest) spacing (accumulated + seg) num_points r.1 r.2
    else result
  | _ => result

/-- subdivide_contour (stitch_generator.py lines 356-409). -/
def subdivide_contour (points : List Point) (target_length : ℚ) : List Point :=
  match points with
  | [] => []
  | [p] => [p]
  | p0 :: rest =>
    let perimeter := ((cyclicPairs (p0 :: rest)).map (fun pq => qdist pq.1 pq.2)).sum
    let num_points := max 3 (pyInt (perimeter / target_length)).toNat
    let target_spacing := perimeter / (num_points : ℚ)
    let result := subdivideOuter (p0 :: rest) target_spacing 0 num_points 0 [p0]
    result ++ [p0]

/-- generate_outline_stitches (stitch_generator.py lines 237-283), the bean
stitch: the resampled contour emitted passes times, alternating direction,
converted to embroidery units. -/
def generate_outline_stitches (contour : List Point) (stitch_length
    pixels_per_mm : ℚ) (center_offset : Point) (passes : ℕ := 3) : List (ℤ × ℤ) :=
  match contour with
  | [] => []
  | _ =>
    let points := contour
    if points.length < 2 then []
    else
      let subdivided := subdivide_contour points (stitch_length * pixels_per_mm)
      if subdivided.length < 2 then []
      else
        ((List.range passes).map
          (fun pass_num =>
            (if pass_num % 2 = 0 then subdivided else subdivided.reverse).map
              (toEmb pixels_per_mm center_offset))).flatten

/-- generate_operation_stitches (stitch_generator.py lines 111-142). -/
def generate_operation_stitches (op : StitchOperation) (pixels_per_mm : ℚ)
    (center_offset : Point) : List (ℤ × ℤ) :=
  match op.stitch_type with
  | .fill =>
    generate_fill_stitches op.contour op.angle op.density op.stitch_length
      pixels_per_mm center_offset
  | .underlay =>
    generate_fill_stitches op.contour op.angle op.density op.stitch_length
      pixels_per_mm center_offset
  | .outline =>
    generate_outline_stitches op.contour op.stitch_length pixels_per_mm
      center_offset
  | .detail =>
    generate_fill_stitches op.contour op.angle (op.density * (8 / 10))
      op.stitch_length pixels_per_mm center_offset
  | .satin => []

/-! ## image_preprocess.py -/

/-- The keys of HOOP_SPECS (image_preprocess.py lines 28-39). -/
def HOOP_SPECS_keys : List String := ["100x100", "70x70"]

/-- The hoop fallback at the top of preprocess_for_embroidery
(image_preprocess.py lines 88-89): an unknown hoop identifier is silently
replaced by 100x100 and processing continues. -/
def resolve_hoop_size (hoop_size : String) : String :=
  if HOOP_SPECS_keys.contains hoop_size then hoop_size else "100x100"

/-- crop_to_content (image_preprocess.py lines 247-279), numpy branch; the
OpenCV branch computes the same bounding box.  The image is a list of rows;
the mask holds uint8 values where nonzero means foreground.  When the mask
has no nonzero entry the inputs are returned unchanged. -/
def crop_to_content (image : List (List ℕ)) (mask : List (List ℕ))
    (padding_px : ℕ := 10) : List (List ℕ) × List (List ℕ) :=
  let rows := mask.map (fun row => row.any (fun v => 0 < v))
  let cols := (List.range ((mask.headD []).length)).map
    (fun j => mask.any (fun row => 0 < row.getD j 0))
  if ¬ rows.any id ∨ ¬ cols.any id then (image, mask)
  else
    let y_min := rows.findIdx id
    let y_max := rows.length - 1 - (rows.reverse.findIdx id)
    let x_min := cols.findIdx id
    let x_max := cols.length - 1 - (cols.reverse.findIdx id)
    let w := x_max - x_min + 1
    let h := y_max - y_min + 1
    let x1 := x_min - padding_px
    let y1 := y_min - padding_px
    let x2 := min ((image.headD []).length) (x_min + w + padding_px)
    let y2 := min image.length (y_min + h + padding_px)
    (((image.drop y1).take (y2 - y1)).map (fun row => (row.drop x1).take (x2 - x1)),
     ((mask.drop y1).take (y2 - y1)).map (fun row => (row.drop x1).take (x2 - x1)))

/-! ## Planner invariants -/

/-- The bookkeeping invariant of a layer: its cached stitch estimate is the
sum of its operations' estimates. -/
def LayerOk (ly : StitchLayer) : Prop :=
  ly.estimated_stitches = (ly.operations.map StitchOperation.estimated_stitches).sum

theorem foldl_add_operation_spec (ops : List StitchOperation) (ly : StitchLayer) :
    (ops.foldl StitchLayer.add_operation ly).estimated_stitches
      = ly.estimated_stitches + (ops.map StitchOperation.estimated_stitches).sum
    ∧ (ops.foldl StitchLayer.add_operation ly).operations
      = ly.operations ++ ops := by
  induction ops generalizing ly with
  | nil => simp
  | cons op ops ih =>
    simp only [List.foldl_cons, List.map_cons, List.sum_cons]
    refine ⟨?_, ?_⟩
    · rw [(ih _).1]
      simp [StitchLayer.add_operation]
      ring
    · rw [(ih _).2]
      simp [StitchLayer.add_operation]

theorem buildLayer_ok (ch : String) (crs : List Region)
    (tm : Option (List (String × ThreadInfo))) (d : ℚ) (u : Bool) :
    LayerOk (buildLayer ch crs tm d u) := by
  have main :
      ∀ (crs' : List Region) (ly : StitchLayer), LayerOk ly →
        LayerOk (crs'.foldl
          (fun ly r =>
            (plan_region_operations r d u).foldl StitchLayer.add_operation ly) ly) := by
    intro crs'
    induction crs' with
    | nil => intro ly h; exact h
    | cons r rs ih =>
      intro ly h
      simp only [List.foldl_cons]
      apply ih
      unfold LayerOk
      rw [(foldl_add_operation_spec _ _).1, (foldl_add_operation_spec _ _).2]
      rw [h]
      simp
  apply main
  unfold LayerOk
  simp [buildLayer]

theorem planFold_spec (bc : List (String × List Region))
    (tm : Option (List (String × ThreadInfo))) (d : ℚ) (u : Bool) :
    ∀ p : StitchPlan,
      (bc.foldl (planFoldStep tm d u) p).warnings = p.warnings ∧
      (bc.foldl (planFoldStep tm d u) p).quality_preset = p.quality_preset ∧
      (bc.foldl (planFoldStep tm d u) p).hoop_size = p.hoop_size ∧
      (∀ l ∈ (bc.foldl (planFoldStep tm d u) p).layers, l ∈ p.layers ∨ LayerOk l) := by
  induction bc with
  | nil =>
    intro p
    refine ⟨rfl, rfl, rfl, fun l hl => Or.inl hl⟩
  | cons g bc ih =>
    intro p
    simp only [List.foldl_cons]
    refine ⟨(ih _).1.trans ?_, (ih _).2.1.trans ?_, (ih _).2.2.1.trans ?_, ?_⟩
    · simp only [planFoldStep]
      split <;> simp [StitchPlan.add_layer]
    · simp only [planFoldStep]
      split <;> simp [StitchPlan.add_layer]
    · simp only [planFoldStep]
      split <;> simp [StitchPlan.add_layer]
    · intro l hl
      rcases (ih _).2.2.2 l hl with hmem | hok
      · simp only [planFoldStep] at hmem
        split at hmem
        · exact Or.inl hmem
        · simp only [StitchPlan.add_layer, List.mem_append, List.mem_singleton] at hmem
          rcases hmem with hmem | rfl
          · exact Or.inl hmem
          · exact Or.inr (buildLayer_ok _ _ _ _ _)
      · exact Or.inr hok

theorem finalize_spec (p : StitchPlan) :
    (p.finalize).layers = p.layers ∧
    (p.finalize).total_stitches = (p.layers.map StitchLayer.estimated_stitches).sum ∧
    (p.finalize).estimated_time_minutes
      = ((p.layers.map StitchLayer.estimated_stitches).sum : ℚ) / 400 ∧
    (p.finalize).quality_preset = p.quality_preset ∧
    (p.finalize).hoop_size = p.hoop_size ∧
    (p.finalize).warnings
      = p.warnings
        ++ (if 20000 < (p.layers.map StitchLayer.estimated_stitches).sum then
              [Warning.stitchHard (p.layers.map StitchLayer.estimated_stitches).sum]
            else if 15000 < (p.layers.map StitchLayer.estimated_stitches).sum then
              [Warning.stitchSoft (p.layers.map StitchLayer.estimated_stitches).sum]
            else [])
        ++ (if 10 < p.layers.length then [Warning.manyColors p.layers.length] else []) := by
  simp only [StitchPlan.finalize, StitchPlan.validate, PP1_DEFAULTS]
  split_ifs <;> simp_all

/-! ## Claims C1 and C2 -/

/-- C1: every StitchPlan returned by plan_stitches carries exactly one hard
stitch-limit warning when the total is strictly above 20,000, exactly one
soft warning when it is strictly above 15,000 but not above 20,000, and
neither otherwise; it carries the color-count warning exactly when it has
more than 10 layers; and the plan is still produced, with its total equal to
the sum of its layer estimates. -/
theorem C1_capacity_warnings (regions : List Region) (hoop qp : String)
    (d : ℚ) (tm : Option (List (String × ThreadInfo))) :
    let plan := plan_stitches regions hoop qp d tm
    plan.warnings.countP Warning.isHard
        = (if 20000 < plan.total_stitches then 1 else 0) ∧
    plan.warnings.countP Warning.isSoft
        = (if 15000 < plan.total_stitches ∧ plan.total_stitches ≤ 20000 then 1 else 0) ∧
    plan.warnings.countP Warning.isColors
        = (if 10 < plan.layers.length then 1 else 0) ∧
    plan.total_stitches = (plan.layers.map StitchLayer.estimated_stitches).sum := by
  intro plan
  have hplan : plan
      = ((groupByColor regions).foldl
          (planFoldStep tm (presetDensity ((QualityPreset.ofString qp).getD .balanced) * d)
            (presetUnderlay ((QualityPreset.ofString qp).getD .balanced)))
          { layers := [], total_stitches := 0, estimated_time_minutes := 0,
            quality_preset := qp, hoop_size := hoop, warnings := [] }).finalize := rfl
  set p := (groupByColor regions).foldl
      (planFoldStep tm (presetDensity ((QualityPreset.ofString qp).getD .balanced) * d)
        (presetUnderlay ((QualityPreset.ofString qp).getD .balanced)))
      { layers := [], total_stitches := 0, estimated_time_minutes := 0,
        quality_preset := qp, hoop_size := hoop, warnings := [] } with hp
  have hw : p.warnings = [] := (planFold_spec _ _ _ _ _).1
  obtain ⟨hlay, htot, _, _, _, hwarn⟩ := finalize_spec p
  rw [hplan, hwarn, hw, htot, hlay]
  set S := (p.layers.map StitchLayer.estimated_stitches).sum with hS
  refine ⟨?_, ?_, ?_, rfl⟩
  · by_cases h1 : 20000 < S
    · simp only [h1, if_pos, hS, List.nil_append, List.countP_append]
      split <;> simp [Warning.isHard, List.countP_cons]
    · by_cases h2 : 15000 < S
      · simp only [h1, h2, if_neg, if_pos, not_false_iff, hS, List.nil_append,
          List.countP_append]
        split <;> simp [Warning.isHard, List.countP_cons]
      · simp only [h1, h2, if_neg, not_false_iff, hS, List.nil_append,
          List.countP_append]
        split <;> simp [Warning.isHard, List.countP_cons]
  · by_cases h1 : 20000 < S
    · have hns : ¬ (15000 < S ∧ S ≤ 20000) := by omega
      simp only [h1, hns, if_pos, if_neg, not_false_iff, hS, List.nil_append,
        List.countP_append]
      split <;> simp [Warning.isSoft, List.countP_cons]
    · by_cases h2 : 15000 < S
      · have hs : 15000 < S ∧ S ≤ 20000 := by omega
        simp only [h1, h2, hs, if_pos, if_neg, not_false_iff, hS, List.nil_append,
          List.countP_append]
        split <;> simp [Warning.isSoft, List.countP_cons]
      · have hns : ¬ (15000 < S ∧ S ≤ 20000) := by omega
        simp only [h1, h2, hns, if_neg, not_false_iff, hS, List.nil_append,
          List.countP_append]
        split <;> simp [Warning.isSoft, List.countP_cons]
  · by_cases h3 : 10 < p.layers.length
    · simp only [h3, if_pos, hS, List.nil_append, List.countP_append]
      split_ifs <;> simp [Warning.isColors, List.countP_cons]
    · simp only [h3, if_neg, not_false_iff, hS, List.nil_append, List.countP_append]
      split_ifs <;> simp [Warning.isColors, List.countP_cons]

/-- C2: in every StitchPlan returned by plan_stitches the total equals the
sum of the layer estimates, each layer estimate equals the sum of its
operations' estimates, and the estimated sewing time is the total divided
by 400. -/
theorem C2_totals_invariant (regions : List Region) (hoop qp : String)
    (d : ℚ) (tm : Option (List (String × ThreadInfo))) :
    let plan := plan_stitches regions hoop qp d tm
    plan.total_stitches = (plan.layers.map StitchLayer.estimated_stitches).sum ∧
    (∀ l ∈ plan.layers,
      l.estimated_stitches = (l.operations.map StitchOperation.estimated_stitches).sum) ∧
    plan.estimated_time_minutes = (plan.total_stitches : ℚ) / 400 := by
  intro plan
  have hplan : plan
      = ((groupByColor regions).foldl
          (planFoldStep tm (presetDensity ((QualityPreset.ofString qp).getD .balanced) * d)
            (presetUnderlay ((QualityPreset.ofString qp).getD .balanced)))
          { layers := [], total_stitches := 0, estimated_time_minutes := 0,
            quality_preset := qp, hoop_size := hoop, warnings := [] }).finalize := rfl
  set p := (groupByColor regions).foldl
      (planFoldStep tm (presetDensity ((QualityPreset.ofString qp).getD .balanced) * d)
        (presetUnderlay ((QualityPreset.ofString qp).getD .balanced)))
      { layers := [], total_stitches := 0, estimated_time_minutes := 0,
        quality_preset := qp, hoop_size := hoop, warnings := [] } with hp
  obtain ⟨hlay, htot, htime, _, _, _⟩ := finalize_spec p
  rw [hplan, htot, hlay, htime]
  refine ⟨rfl, ?_, rfl⟩
  intro l hl
  rcases (planFold_spec _ _ _ _ _).2.2.2 l hl with hmem | hok
  · simp at hmem
  · exact hok

/-! ## Claim C3 -/

/-- A fill-type region with principal angle 120 degrees and area 60 mm²,
used to exercise the underlay branch of plan_region_operations. -/
def regionC3 : Region :=
  { color_hex := "#FF0000"
    color_rgb := (255, 0, 0)
    region_type := "fill"
    contours := [[(0, 0), (100, 0), (100, 100), (0, 100)]]
    holes := []
    area_mm2 := 60
    perimeter_mm := 40
    principal_angle := 120
    bounding_box := (0, 0, 101, 101)
    aspect := 1
    compactness := 1 / 2
    centroid := (50, 50) }

/-- C3 counterexample: for a fill region with principal angle 120 the
underlay operation's angle is 30 = (120 + 90) mod 180, not 120 + 90 = 210,
so the claimed equality "underlay angle = fill angle + 90" fails. -/
theorem C3_counterexample :
    ((plan_region_operations regionC3 1 true).map StitchOperation.angle).head? = some 30
    ∧ (30 : ℚ) ≠ regionC3.principal_angle + 90 := by
  constructor
  · have hops : plan_region_operations regionC3 1 true
        = [create_underlay_operation regionC3 (5 * 1),
           create_fill_operation regionC3 (5 * 1),
           create_outline_operation regionC3] := by
      norm_num [plan_region_operations, regionC3, PP1_DEFAULTS]
    rw [hops]
    simp only [List.map_cons, List.head?_cons]
    norm_num [create_underlay_operation, pyMod, PP1_DEFAULTS, regionC3]
  · norm_num [regionC3]

/-- C3 amended: with underlay enabled (the preset table enables it for
balanced and quality only, never fast), a fill region with area strictly
above 50 mm² is planned as exactly [underlay, main fill, outline] and
otherwise as exactly [main fill, outline]; the underlay's angle is the fill
angle plus 90 degrees reduced modulo 180, its density is half the main fill
density, and its stitch length is the maximum stitch length 3.5 mm. -/
theorem C3_fill_sequence (r : Region) (dmult : ℚ)
    (hfill : r.region_type = "fill") :
    (presetUnderlay .fast = false ∧ presetUnderlay .balanced = true ∧
     presetUnderlay .quality = true) ∧
    (let ops := plan_region_operations r dmult true
     if 50 < r.area_mm2 then
       ops.map StitchOperation.stitch_type
           = [StitchType.underlay, StitchType.fill, StitchType.outline] ∧
       (ops.map StitchOperation.angle).head?
           = some (pyMod (r.principal_angle + 90) 180) ∧
       (ops.map StitchOperation.density).take 2
           = [5 * dmult * (1 / 2), 5 * dmult] ∧
       (ops.map StitchOperation.stitch_length).head? = some STITCH_LENGTH_MAX_MM
     else
       ops.map StitchOperation.stitch_type = [StitchType.fill, StitchType.outline]) := by
  refine ⟨⟨rfl, rfl, rfl⟩, ?_⟩
  intro ops
  by_cases harea : 50 < r.area_mm2
  · rw [if_pos harea]
    have hops : ops
        = [create_underlay_operation r (5 * dmult),
           create_fill_operation r (5 * dmult),
           create_outline_operation r] := by
      simp [ops, plan_region_operations, hfill, PP1_DEFAULTS, harea]
    rw [hops]
    refine ⟨rfl, rfl, rfl, rfl⟩
  · rw [if_neg harea]
    have hops : ops
        = [create_fill_operation r (5 * dmult), create_outline_operation r] := by
      simp [ops, plan_region_operations, hfill, PP1_DEFAULTS, harea]
    rw [hops]
    rfl

/-- C3 witness: the amended statement instantiated at the concrete fill
region regionC3 with density multiplier 1. -/
theorem C3_fill_sequence_witness :
    regionC3.region_type = "fill" ∧
    ((presetUnderlay .fast = false ∧ presetUnderlay .balanced = true ∧
      presetUnderlay .quality = true) ∧
     (let ops := plan_region_operations regionC3 1 true
      if 50 < regionC3.area_mm2 then
        ops.map StitchOperation.stitch_type
            = [StitchType.underlay, StitchType.fill, StitchType.outline] ∧
        (ops.map StitchOperation.angle).head?
            = some (pyMod (regionC3.principal_angle + 90) 180) ∧
        (ops.map StitchOperation.density).take 2
            = [5 * 1 * (1 / 2), 5 * 1] ∧
        (ops.map StitchOperation.stitch_length).head? = some STITCH_LENGTH_MAX_MM
      else
        ops.map StitchOperation.stitch_type
            = [StitchType.fill, StitchType.outline])) :=
  ⟨rfl, C3_fill_sequence regionC3 1 rfl⟩

/-! ## Claim C4 -/

/-- A 1 mm x 20 mm rectangle in horizontal orientation, as a pixel contour
at 10 px/mm (200 px wide, 10 px tall). -/
def horizRect : List IPoint := [(0, 0), (200, 0), (200, 10), (0, 10)]

/-- The same 1 mm x 20 mm rectangle rotated to vertical orientation
(10 px wide, 200 px tall). -/
def vertRect : List IPoint := [(0, 0), (10, 0), (10, 200), (0, 200)]

theorem contourArea_vertRect : contourArea vertRect = 2000 := by
  norm_num [contourArea, cyclicPairs, vertRect]

theorem arcLength_vertRect : arcLength vertRect = 420 := by
  norm_num [arcLength, cyclicPairs, vertRect, qdist,
    sqrtQ_eval 100 10 (by norm_num) (by norm_num),
    sqrtQ_eval 40000 200 (by norm_num) (by norm_num)]

theorem contourArea_horizRect : contourArea horizRect = 2000 := by
  norm_num [contourArea, cyclicPairs, horizRect]

theorem arcLength_horizRect : arcLength horizRect = 420 := by
  norm_num [arcLength, cyclicPairs, horizRect, qdist,
    sqrtQ_eval 100 10 (by norm_num) (by norm_num),
    sqrtQ_eval 40000 200 (by norm_num) (by norm_num)]

/-- The compactness of the 1 x 20 mm rectangle, 4 pi 2000 / 420^2 with the
double value of pi, is not below the 0.1 outline threshold. -/
theorem rect_compactness_not_small : ¬ (4 * qpi * 2000 / 420 ^ 2 < 1 / 10) := by
  norm_num [qpi]

theorem vertRect_classifies_fill : region_type_from_contour vertRect 10 = "fill" := by
  have hb : boundingRect vertRect = (0, 0, 11, 201) := by
    norm_num [boundingRect, vertRect]
  simp only [region_type_from_contour, hb, contourArea_vertRect, arcLength_vertRect]
  rw [if_pos (by norm_num : (420 : ℚ) > 0)]
  rw [classify_region, if_neg, if_neg, if_neg]
  · norm_num [DETAIL_AREA_MM2]
  · norm_num [OUTLINE_ASPECT_BOUND]
  · simpa [OUTLINE_COMPACTNESS] using rect_compactness_not_small

/-- C4 counterexample: the 1 mm x 20 mm rectangle in vertical orientation is
classified "fill", not "outline", because the aspect ratio used by the code
is bounding-box width / height = 11 / 201, which does not exceed 8. -/
theorem C4_counterexample :
    region_type_from_contour vertRect 10 = "fill"
    ∧ ("fill" : String) ≠ "outline" :=
  ⟨vertRect_classifies_fill, by decide⟩

/-- C4 amended: classification applies, in order, compactness < 0.1 then
aspect ratio > 8 then area < 5 mm², but the aspect ratio is bounding-box
width divided by height rather than long side over short side; hence the
1 x 20 mm rectangle is classified outline in horizontal orientation yet
fill in vertical orientation, while a shape with compactness about 1 and
aspect about 1 and area 10 mm² (the 10 mm² circle) is classified fill. -/
theorem C4_classification_rule :
    (∀ a p c asp : ℚ,
      (c < 1 / 10 → classify_region a p c asp = "outline") ∧
      (1 / 10 ≤ c → 8 < asp → classify_region a p c asp = "outline") ∧
      (1 / 10 ≤ c → asp ≤ 8 → a < 5 → classify_region a p c asp = "detail") ∧
      (1 / 10 ≤ c → asp ≤ 8 → 5 ≤ a → classify_region a p c asp = "fill")) ∧
    region_type_from_contour horizRect 10 = "outline" ∧
    region_type_from_contour vertRect 10 = "fill" := by
  refine ⟨?_, ?_, vertRect_classifies_fill⟩
  · intro a p c asp
    refine ⟨fun h1 => ?_, fun h1 h2 => ?_, fun h1 h2 h3 => ?_, fun h1 h2 h3 => ?_⟩
    · rw [classify_region, if_pos (by simpa [OUTLINE_COMPACTNESS] using h1)]
    · rw [classify_region, if_neg (by simpa [OUTLINE_COMPACTNESS] using not_lt.mpr h1),
        if_pos (by simpa [OUTLINE_ASPECT_BOUND] using h2)]
    · rw [classify_region, if_neg (by simpa [OUTLINE_COMPACTNESS] using not_lt.mpr h1),
        if_neg (by simpa [OUTLINE_ASPECT_BOUND] using not_lt.mpr h2),
        if_pos (by simpa [DETAIL_AREA_MM2] using h3)]
    · rw [classify_region, if_neg (by simpa [OUTLINE_COMPACTNESS] using not_lt.mpr h1),
        if_neg (by simpa [OUTLINE_ASPECT_BOUND] using not_lt.mpr h2),
        if_neg (by simpa [DETAIL_AREA_MM2] using not_lt.mpr h3)]
  · have hb : boundingRect horizRect = (0, 0, 201, 11) := by
      norm_num [boundingRect, horizRect]
    simp only [region_type_from_contour, hb, contourArea_horizRect, arcLength_horizRect]
    rw [if_pos (by norm_num : (420 : ℚ) > 0)]
    rw [classify_region, if_neg, if_pos]
    · norm_num [OUTLINE_ASPECT_BOUND]
    · simpa [OUTLINE_COMPACTNESS] using rect_compactness_not_small

/-- C4 witness: the rule applied at compactness 1, aspect 1, area 10 mm²,
matching the 10 mm² circle of the claim, classifies as fill. -/
theorem C4_classification_rule_witness :
    (1 : ℚ) / 10 ≤ 1 ∧ (1 : ℚ) ≤ 8 ∧ (5 : ℚ) ≤ 10 ∧
    classify_region 10 34 1 1 = "fill" :=
  ⟨by norm_num, by norm_num, by norm_num,
    (C4_classification_rule.1 10 34 1 1).2.2.2 (by norm_num) (by norm_num) (by norm_num)⟩

/-! ## Claim C8 -/

/-- A 0.7 mm x 0.7 mm square as a pixel contour at 10 px/mm: perimeter
2.8 mm, below the 3 mm floor. -/
def smallSquare : List IPoint := [(0, 0), (7, 0), (7, 7), (0, 7)]

/-- C8: the extract_regions size filter compares the perimeter against
min_area_mm2 * pixels_per_mm instead of MIN_PERIMETER_MM * pixels_per_mm,
so with min_area_mm2 = 0.4 a contour of perimeter 2.8 mm (below the 3 mm
floor) passes the filters and still yields a region. -/
theorem C8_perimeter_floor_ignored :
    contour_passes_size_filters smallSquare (2 / 5) 10 = true ∧
    arcLength smallSquare / 10 < MIN_PERIMETER_MM ∧
    MIN_AREA_MM2 ≠ MIN_PERIMETER_MM := by
  have hp : arcLength smallSquare = 28 := by
    norm_num [arcLength, cyclicPairs, smallSquare, qdist,
      sqrtQ_eval 49 7 (by norm_num) (by norm_num)]
  have ha : contourArea smallSquare = 49 := by
    norm_num [contourArea, cyclicPairs, smallSquare]
  refine ⟨?_, ?_, ?_⟩
  · simp only [contour_passes_size_filters, hp, ha]
    rw [if_neg (by norm_num), if_neg (by norm_num)]
  · rw [hp]
    norm_num [MIN_PERIMETER_MM]
  · norm_num [MIN_AREA_MM2, MIN_PERIMETER_MM]

/-! ## Claim C5 -/

theorem subdivideInner_length_mono (p1 p2 : Point) (seg spacing accumulated : ℚ)
    (num_points : ℕ) (next_target : ℚ) (result : List Point) :
    result.length
      ≤ ((subdivideInner p1 p2 seg spacing accumulated num_points
            next_target result).2).length := by
  induction next_target, result using
      subdivideInner.induct p1 p2 seg spacing accumulated num_points with
  | case1 next_target result h t t' ih =>
    rw [subdivideInner, dif_pos h]
    refine le_trans ?_ ih
    simp
  | case2 next_target result h =>
    rw [subdivideInner, dif_neg h]

theorem subdivideOuter_length_mono (pts : List Point) :
    ∀ (spacing accumulated : ℚ) (num_points : ℕ) (next_target : ℚ)
      (result : List Point),
      result.length
        ≤ (subdivideOuter pts spacing accumulated num_points next_target result).length := by
  induction pts with
  | nil => intro _ _ _ _ result; simp [subdivideOuter]
  | cons p1 rest ih =>
    intro spacing accumulated num_points next_target result
    cases rest with
    | nil => simp [subdivideOuter]
    | cons p2 rest' =>
      rw [subdivideOuter]
      split
      · exact le_trans (subdivideInner_length_mono _ _ _ _ _ _ _ _) (ih _ _ _ _ _)
      · exact le_refl _

theorem subdivide_contour_two_le (points : List Point) (L : ℚ)
    (h : 2 ≤ points.length) : 2 ≤ (subdivide_contour points L).length := by
  match points with
  | p0 :: p1 :: rest =>
    simp only [subdivide_contour]
    rw [List.length_append]
    have h1 := subdivideOuter_length_mono (p0 :: p1 :: rest)
      (((cyclicPairs (p0 :: p1 :: rest)).map (fun pq => qdist pq.1 pq.2)).sum
        / ((max 3 (pyInt
            (((cyclicPairs (p0 :: p1 :: rest)).map (fun pq => qdist pq.1 pq.2)).sum
              / L)).toNat : ℕ) : ℚ))
      0
      (max 3 (pyInt
        (((cyclicPairs (p0 :: p1 :: rest)).map (fun pq => qdist pq.1 pq.2)).sum / L)).toNat)
      0 [p0]
    simp only [List.length_cons, List.length_nil] at h1
    simp only [List.length_cons, List.length_nil]
    omega

/-- C5: for a contour with at least two points the bean-stitch generator
emits exactly 3 P records, where P (at least 2) is the length of the
resampled point sequence: the sequence converted to embroidery units
forward, then backward, then forward again, so record 0 of the first pass
equals record 0 of the third pass. -/
theorem C5_bean_stitch (contour : List Point) (sl ppm : ℚ) (off : Point)
    (h : 2 ≤ contour.length) :
    let subdivided := subdivide_contour contour (sl * ppm)
    let out := generate_outline_stitches contour sl ppm off
    2 ≤ subdivided.length ∧
    out = subdivided.map (toEmb ppm off) ++ subdivided.reverse.map (toEmb ppm off)
          ++ subdivided.map (toEmb ppm off) ∧
    out.length = 3 * subdivided.length ∧
    out.head? = (out.drop (2 * subdivided.length)).head? := by
  cases contour with
  | nil => simp at h
  | cons c cs =>
  intro subdivided out
  have h2 : 2 ≤ (subdivide_contour (c :: cs) (sl * ppm)).length :=
    subdivide_contour_two_le (c :: cs) (sl * ppm) h
  have hout : out
      = subdivided.map (toEmb ppm off) ++ subdivided.reverse.map (toEmb ppm off)
        ++ subdivided.map (toEmb ppm off) := by
    show generate_outline_stitches (c :: cs) sl ppm off = _
    simp only [generate_outline_stitches]
    rw [if_neg (by omega : ¬ (c :: cs).length < 2),
      if_neg (by omega : ¬ (subdivide_contour (c :: cs) (sl * ppm)).length < 2)]
    rw [show List.range 3 = [0, 1, 2] from rfl]
    simp only [List.map_cons, List.map_nil, List.flatten_cons, List.flatten_nil,
      List.append_nil]
    norm_num [List.append_assoc]
  refine ⟨h2, hout, ?_, ?_⟩
  · rw [hout]
    simp only [List.length_append, List.length_map, List.length_reverse]
    ring
  · obtain ⟨s0, srest, hs⟩ :
        ∃ s0 srest, subdivide_contour (c :: cs) (sl * ppm) = s0 :: srest := by
      cases hsub : subdivide_contour (c :: cs) (sl * ppm) with
      | nil => rw [hsub] at h2; simp at h2
      | cons s0 srest => exact ⟨s0, srest, rfl⟩
    have hlen : (subdivided.map (toEmb ppm off)
        ++ subdivided.reverse.map (toEmb ppm off)).length = 2 * subdivided.length := by
      simp only [List.length_append, List.length_map, List.length_reverse]
      ring
    rw [hout, ← hlen, List.drop_left]
    rw [show (subdivided : List Point) = s0 :: srest from hs]
    simp

/-- C5 witness: the bean-stitch property applied to the concrete two-point
contour (0,0)-(20,0) at stitch length 2 mm and 10 px/mm. -/
theorem C5_bean_stitch_witness :
    2 ≤ ([((0 : ℚ), (0 : ℚ)), (20, 0)] : List Point).length ∧
    (let subdivided := subdivide_contour [((0 : ℚ), (0 : ℚ)), (20, 0)] (2 * 10)
     let out := generate_outline_stitches [((0 : ℚ), (0 : ℚ)), (20, 0)] 2 10 (0, 0)
     2 ≤ subdivided.length ∧
     out = subdivided.map (toEmb 10 (0, 0)) ++ subdivided.reverse.map (toEmb 10 (0, 0))
           ++ subdivided.map (toEmb 10 (0, 0)) ∧
     out.length = 3 * subdivided.length ∧
     out.head? = (out.drop (2 * subdivided.length)).head?) :=
  ⟨by norm_num, C5_bean_stitch [((0 : ℚ), (0 : ℚ)), (20, 0)] 2 10 (0, 0) (by norm_num)⟩

/-! ## Claim C7 -/

/-- C7 counterexample: a horizontal span of 39 px (3.9 mm at 10 px/mm)
subdivided at the fill target stitch length of 2 mm (20 px) yields the two
endpoints only, a single segment of 3.9 mm, which exceeds the maximum
stitch length of 3.5 mm. -/
theorem C7_counterexample :
    generate_line_stitches 0 0 39 0 20 1 = [(0, 0), (39, 0)] ∧
    (39 : ℚ) / 10 > STITCH_LENGTH_MAX_MM := by
  constructor
  · have hlen : sqrtQ ((39 - 0) * (39 - 0) + (0 - 0) * (0 - 0)) = (39 : ℚ) :=
      sqrtQ_eval _ 39 (by norm_num) (by norm_num)
    simp only [generate_line_stitches, hlen]
    rw [if_neg (by norm_num)]
    have hnum : max 2 (pyInt ((39 : ℚ) / 20) + 1).toNat = 2 := by
      rw [pyInt, if_pos (by norm_num)]
      norm_num [show ⌊(39 : ℚ) / 20⌋ = 1 by norm_num]
    rw [hnum]
    rw [show List.range 2 = [0, 1] from rfl]
    norm_num
  · norm_num [STITCH_LENGTH_MAX_MM]

theorem chain'_of_map_range {α : Type} (f : ℕ → α) (n : ℕ) (R : α → α → Prop)
    (h : ∀ i, i + 1 < n → R (f i) (f (i + 1))) :
    List.Chain' R ((List.range n).map f) := by
  rw [List.chain'_map]
  cases n with
  | zero => simp
  | succ nn =>
    rw [List.chain'_range_succ]
    intro m hm
    exact h m (by omega)

/-- C7 amended: a horizontal span from x1 to x2 subdivided at stitch length
L > 0 always includes the final point (x2, y), and every consecutive pair of
emitted stitches is at distance strictly below 2 L (the floor-based point
count can produce segments longer than L itself, and in particular longer
than the 3.5 mm maximum: see the counterexample). -/
theorem C7_line_stitches (x1 y x2 L : ℚ) (dir : ℤ) (hL : 0 < L) :
    (x2, y) ∈ generate_line_stitches x1 y x2 y L dir ∧
    List.Chain' (fun p q : Point => |q.1 - p.1| < 2 * L ∧ q.2 = y)
      (generate_line_stitches x1 y x2 y L dir) := by
  have hlen : sqrtQ ((x2 - x1) * (x2 - x1) + (y - y) * (y - y)) = |x2 - x1| := by
    rw [show (y - y : ℚ) = 0 by ring]
    simpa using sqrtQ_mul_self (x2 - x1)
  simp only [generate_line_stitches, hlen]
  by_cases hshort : |x2 - x1| < L / 2
  · rw [if_pos hshort]
    refine ⟨by simp, ?_⟩
    refine List.chain'_cons.mpr ⟨⟨?_, rfl⟩, List.chain'_singleton _⟩
    have h1 : |x2 - x1| < 2 * L := by linarith
    exact h1
  · rw [if_neg hshort]
    have habs : (0 : ℚ) ≤ |x2 - x1| / L := by positivity
    have hkfl : pyInt (|x2 - x1| / L) = ⌊|x2 - x1| / L⌋ := by
      rw [pyInt, if_pos habs]
    have hk0 : 0 ≤ ⌊|x2 - x1| / L⌋ := Int.floor_nonneg.mpr habs
    set m : ℕ := ⌊|x2 - x1| / L⌋.toNat with hm
    have hmk : (⌊|x2 - x1| / L⌋ : ℚ) = (m : ℚ) := by
      rw [hm]
      exact_mod_cast (Int.toNat_of_nonneg hk0).symm
    have hub : |x2 - x1| < ((m : ℚ) + 1) * L := by
      have h1 : |x2 - x1| / L < (⌊|x2 - x1| / L⌋ : ℚ) + 1 :=
        Int.lt_floor_add_one _
      rw [hmk] at h1
      calc |x2 - x1| = (|x2 - x1| / L) * L := by field_simp
        _ < ((m : ℚ) + 1) * L := mul_lt_mul_of_pos_right h1 hL
    have hnum : max 2 (pyInt (|x2 - x1| / L) + 1).toNat = max 2 (m + 1) := by
      rw [hkfl]
      congr 1
      omega
    rw [hnum]
    set n : ℕ := max 2 (m + 1) with hn
    have hn2 : 2 ≤ n := le_max_left _ _
    have hone : 1 < n := by omega
    have hnq : (2 : ℚ) ≤ (n : ℚ) := by exact_mod_cast hn2
    have hnpos : (0 : ℚ) < (n : ℚ) - 1 := by linarith
    have hgap : |x2 - x1| / ((n : ℚ) - 1) < 2 * L := by
      rcases Nat.eq_zero_or_pos m with hm0 | hm1
      · have hneq : n = 2 := by omega
        have hlt : |x2 - x1| < L := by
          rw [hm0] at hub
          simpa using hub
        rw [hneq]
        norm_num
        linarith
      · have hneq : n = m + 1 := by omega
        have hcast : ((n : ℚ)) - 1 = (m : ℚ) := by
          rw [hneq]
          push_cast
          ring
        rw [hcast]
        rw [div_lt_iff₀ (by exact_mod_cast hm1 : (0 : ℚ) < (m : ℚ))]
        have hmq : (1 : ℚ) ≤ (m : ℚ) := by exact_mod_cast hm1
        nlinarith
    constructor
    · rcases lt_or_le dir 0 with hd | hd
      · apply List.mem_map.mpr
        refine ⟨0, List.mem_range.mpr (by omega), ?_⟩
        simp only [if_pos hone, if_pos hd]
        norm_num
      · apply List.mem_map.mpr
        refine ⟨n - 1, List.mem_range.mpr (by omega), ?_⟩
        simp only [if_pos hone, if_neg (by omega : ¬ dir < 0)]
        have ht : ((n - 1 : ℕ) : ℚ) / ((n : ℚ) - 1) = 1 := by
          have hc : ((n - 1 : ℕ) : ℚ) = (n : ℚ) - 1 := by
            have : (1 : ℕ) ≤ n := by omega
            push_cast [this]
            ring
          rw [hc]
          exact div_self (ne_of_gt hnpos)
        rw [ht]
        simp only [Prod.mk.injEq]
        constructor
        · ring
        · ring
    · apply chain'_of_map_range
      intro i hi
      simp only [if_pos hone]
      have hstep : ((i + 1 : ℕ) : ℚ) / ((n : ℚ) - 1) - ((i : ℕ) : ℚ) / ((n : ℚ) - 1)
          = 1 / ((n : ℚ) - 1) := by
        rw [div_sub_div_same]
        push_cast
        ring_nf
      have habs1 : |x2 - x1| * (1 / ((n : ℚ) - 1)) < 2 * L := by
        rw [mul_one_div]
        exact hgap
      rcases lt_or_le dir 0 with hd | hd
      · simp only [if_pos hd]
        refine ⟨?_, by ring⟩
        have hexp : x1 + (1 - ((i + 1 : ℕ) : ℚ) / ((n : ℚ) - 1)) * (x2 - x1)
            - (x1 + (1 - ((i : ℕ) : ℚ) / ((n : ℚ) - 1)) * (x2 - x1))
            = -((1 / ((n : ℚ) - 1)) * (x2 - x1)) := by
          rw [← hstep]
          push_cast
          ring
        push_cast at hexp ⊢
        rw [hexp, abs_neg, abs_mul, abs_of_pos (by positivity : (0:ℚ) < 1 / ((n : ℚ) - 1))]
        calc 1 / ((n : ℚ) - 1) * |x2 - x1| = |x2 - x1| * (1 / ((n : ℚ) - 1)) := by ring
          _ < 2 * L := habs1
      · simp only [if_neg (by omega : ¬ dir < 0)]
        refine ⟨?_, by ring⟩
        have hexp : x1 + (((i + 1 : ℕ) : ℚ) / ((n : ℚ) - 1)) * (x2 - x1)
            - (x1 + (((i : ℕ) : ℚ) / ((n : ℚ) - 1)) * (x2 - x1))
            = (1 / ((n : ℚ) - 1)) * (x2 - x1) := by
          rw [← hstep]
          push_cast
          ring
        push_cast at hexp ⊢
        rw [hexp, abs_mul, abs_of_pos (by positivity : (0:ℚ) < 1 / ((n : ℚ) - 1))]
        calc 1 / ((n : ℚ) - 1) * |x2 - x1| = |x2 - x1| * (1 / ((n : ℚ) - 1)) := by ring
          _ < 2 * L := habs1

/-- C7 witness: the amended span property applied to the concrete span
(0,0)-(39,0) at stitch length 20 px. -/
theorem C7_line_stitches_witness :
    (0 : ℚ) < 20 ∧
    (((39 : ℚ), (0 : ℚ)) ∈ generate_line_stitches 0 0 39 0 20 1 ∧
     List.Chain' (fun p q : Point => |q.1 - p.1| < 2 * 20 ∧ q.2 = 0)
       (generate_line_stitches 0 0 39 0 20 1)) :=
  ⟨by norm_num, C7_line_stitches 0 0 39 20 1 (by norm_num)⟩

/-! ## Claim C6 -/

/-- The outer contour of the C6 example region: a 4 mm x 4 mm square in
pixels at 10 px/mm. -/
def outerC6 : List Point := [(0, 0), (40, 0), (40, 40), (0, 40)]

/-- The hole of the C6 example region: a 2 mm x 2 mm square strictly inside
the outer square. -/
def holeC6 : List Point := [(10, 10), (30, 10), (30, 30), (10, 30)]

/-- A fill region owning one hole. -/
def regionC6 : Region :=
  { color_hex := "#0000FF"
    color_rgb := (0, 0, 255)
    region_type := "fill"
    contours := [outerC6]
    holes := [holeC6]
    area_mm2 := 12
    perimeter_mm := 16
    principal_angle := 0
    bounding_box := (0, 0, 41, 41)
    aspect := 1
    compactness := 1 / 2
    centroid := (20, 20) }

theorem rotate_point_zero (c p : Point) : rotate_point c 0 p = p := by
  simp only [rotate_point, qcos, qsin, Prod.mk.injEq]
  norm_num

theorem map_rotate_zero (c : Point) (l : List Point) :
    l.map (rotate_point c 0) = l := by
  induction l with
  | nil => rfl
  | cons p ps ih => simp [rotate_point_zero, ih]

theorem C6_inter_20 :
    find_scanline_intersections [((0 : ℚ), (0 : ℚ)), (40, 0), (40, 40), (0, 40)] 20
      = [40, 0] := by
  norm_num [find_scanline_intersections, cyclicPairs, List.filterMap_cons]

theorem C6_line_20 :
    generate_line_stitches 0 20 40 20 20 1
      = [(0, 20), (20, 20), (40, 20)] := by
  have hlen : sqrtQ ((40 - 0) * (40 - 0) + ((20 : ℚ) - 20) * ((20 : ℚ) - 20)) = 40 :=
    sqrtQ_eval _ 40 (by norm_num) (by norm_num)
  simp only [generate_line_stitches]
  rw [hlen, if_neg (by norm_num)]
  have hnum : max 2 (pyInt ((40 : ℚ) / 20) + 1).toNat = 3 := by
    rw [pyInt, if_pos (by norm_num), show ⌊(40 : ℚ) / 20⌋ = 2 by norm_num]
    rfl
  rw [hnum, show List.range 3 = [0, 1, 2] from rfl]
  simp only [List.map_cons, List.map_nil]
  norm_num [Prod.ext_iff]

theorem C6_fill_eval :
    generate_fill_stitches [((0 : ℚ), (0 : ℚ)), (40, 0), (40, 40), (0, 40)]
        0 (1 / 4) 2 10 (0, 0)
      = [((0 : ℤ), (20 : ℤ)), (20, 20), (40, 20)] := by
  simp only [generate_fill_stitches]
  rw [if_neg (by norm_num)]
  rw [show qradians (-(0 : ℚ)) = 0 by norm_num [qradians]]
  rw [show meanPoint [((0 : ℚ), (0 : ℚ)), (40, 0), (40, 40), (0, 40)] = ((20 : ℚ), (20 : ℚ))
      by norm_num [meanPoint, Prod.ext_iff]]
  rw [map_rotate_zero]
  rw [show (10 : ℚ) / (1 / 4) = 40 by norm_num]
  rw [show List.map Prod.snd [((0 : ℚ), (0 : ℚ)), (40, 0), (40, 40), (0, 40)]
      = [0, 0, 40, 40] from rfl]
  rw [show listMin [(0 : ℚ), 0, 40, 40] = 0 by norm_num [listMin, min_def]]
  rw [show listMax [(0 : ℚ), 0, 40, 40] = 40 by norm_num [listMax, max_def]]
  rw [show numScanlines 0 40 40 = 1 by
      rw [numScanlines, if_pos (by norm_num), if_pos (by norm_num),
        show ⌊((40 : ℚ) - (0 + 40 / 2)) / 40⌋ = 0 by norm_num]
      rfl]
  rw [show List.range 1 = [0] from rfl]
  simp only [List.map_cons, List.map_nil, List.flatten_cons, List.flatten_nil,
    List.append_nil, Nat.cast_zero]
  norm_num [C6_inter_20, C6_line_20, sortAsc, insertSorted, pairsOf, neg_zero,
    map_rotate_zero, rotate_point_zero, toEmb, pyInt, UNITS_PER_MM, Prod.ext_iff,
    -Prod.mk_zero_zero]

/-- C6 counterexample: the fill operation built from regionC6, which owns
the hole (10,10)-(30,30) in pixels, generates the stitch (20, 20) (embroidery
units coincide with pixels here: ppm = 10, 10 units per mm, zero offset),
and (20, 20) lies strictly inside that hole: the scanline crossings were
computed on the outer contour alone. -/
theorem C6_counterexample :
    regionC6.holes = [holeC6] ∧
    ((20 : ℤ), (20 : ℤ)) ∈
      generate_operation_stitches (create_fill_operation regionC6 (1 / 4)) 10 (0, 0) ∧
    ((10 : ℤ) < 20 ∧ (20 : ℤ) < 30) := by
  refine ⟨rfl, ?_, by norm_num⟩
  show ((20 : ℤ), (20 : ℤ)) ∈
    generate_fill_stitches [((0 : ℚ), (0 : ℚ)), (40, 0), (40, 40), (0, 40)]
      0 (1 / 4) 2 10 (0, 0)
  rw [C6_fill_eval]
  norm_num

/-- C6 amended: fill and underlay operations carry only the first outer
contour of their region; the hole contours are never passed to the stitch
generator, so the generated stitches are unchanged when the region's holes
are replaced arbitrarily (and can therefore fall inside holes: see the
counterexample). -/
theorem C6_holes_ignored (r : Region) (hs : List (List Point)) (d ppm : ℚ)
    (off : Point) :
    generate_operation_stitches (create_fill_operation { r with holes := hs } d) ppm off
      = generate_operation_stitches (create_fill_operation r d) ppm off ∧
    generate_operation_stitches (create_underlay_operation { r with holes := hs } d) ppm off
      = generate_operation_stitches (create_underlay_operation r d) ppm off ∧
    (create_fill_operation r d).contour = r.contours.headD [] ∧
    (create_underlay_operation r d).contour = r.contours.headD [] :=
  ⟨rfl, rfl, rfl, rfl⟩

/-! ## Claim C9 -/

/-- C9 counterexample: with an all-zero (all-background) mask after
segmentation, crop_to_content returns the image and the mask unchanged; the
returned mask is the all-zero mask, not an all-foreground mask as the claim
states. -/
theorem C9_counterexample :
    crop_to_content [[1, 2], [3, 4]] [[0, 0], [0, 0]] 10
      = ([[1, 2], [3, 4]], [[0, 0], [0, 0]]) ∧
    ¬ (([[0, 0], [0, 0]] : List (List ℕ)).all (fun row => row.all (fun v => v != 0))
        = true) := by
  constructor
  · decide
  · decide

/-- C9 amended: an empty mask after segmentation is not an error: the crop
step returns the image and the mask unchanged (the mask stays all-zero
rather than being replaced by an all-foreground mask), and preprocessing
continues with this result. -/
theorem C9_empty_mask (image mask : List (List ℕ)) (padding : ℕ)
    (h : mask.all (fun row => row.all (fun v => v == 0)) = true) :
    crop_to_content image mask padding = (image, mask) := by
  have hz : ∀ row ∈ mask, ∀ v ∈ row, v = 0 := by
    intro row hr v hv
    have h1 := List.all_eq_true.mp h row hr
    have h2 := List.all_eq_true.mp h1 v hv
    simpa using h2
  rw [crop_to_content]
  rw [if_pos]
  left
  intro hcontra
  rw [List.any_eq_true] at hcontra
  obtain ⟨b, hb, hbt⟩ := hcontra
  rw [List.mem_map] at hb
  obtain ⟨row, hrow, rfl⟩ := hb
  simp only [id_eq] at hbt
  rw [List.any_eq_true] at hbt
  obtain ⟨v, hv, hvt⟩ := hbt
  have hv0 := hz row hrow v hv
  simp [hv0] at hvt

/-- C9 witness: the amended statement at a concrete 2 x 2 all-zero mask. -/
theorem C9_empty_mask_witness :
    (([[0, 0], [0, 0]] : List (List ℕ)).all
        (fun row => row.all (fun v => v == 0)) = true) ∧
    crop_to_content [[5, 6], [7, 8]] [[0, 0], [0, 0]] 10
      = ([[5, 6], [7, 8]], [[0, 0], [0, 0]]) :=
  ⟨by decide, C9_empty_mask [[5, 6], [7, 8]] [[0, 0], [0, 0]] 10 (by decide)⟩

/-! ## Claim C10 -/

theorem planFoldStep_qp (tm : Option (List (String × ThreadInfo))) (d : ℚ) (u : Bool)
    (bc : List (String × List Region)) :
    ∀ (p : StitchPlan) (q : String),
      bc.foldl (planFoldStep tm d u) { p with quality_preset := q }
        = { bc.foldl (planFoldStep tm d u) p with quality_preset := q } := by
  induction bc with
  | nil => intro p q; rfl
  | cons g bc ih =>
    intro p q
    simp only [List.foldl_cons]
    have hstep : planFoldStep tm d u { p with quality_preset := q } g
        = { planFoldStep tm d u p g with quality_preset := q } := by
      simp only [planFoldStep]
      by_cases hc : (buildLayer g.1 g.2 tm d u).operations.isEmpty
      · simp [hc]
      · simp [hc, StitchPlan.add_layer]
    rw [hstep, ih]

theorem finalize_qp (p : StitchPlan) (q : String) :
    StitchPlan.finalize { p with quality_preset := q }
      = { p.finalize with quality_preset := q } := by
  simp only [StitchPlan.finalize, StitchPlan.validate]
  split_ifs <;> rfl

/-- The preset fallback of plan_stitches: an unknown preset string is
planned exactly as balanced, only the recorded quality_preset field keeps
the unknown string. -/
theorem plan_stitches_preset_congr (q : String)
    (hq : QualityPreset.ofString q = none) (regions : List Region) (h : String)
    (d : ℚ) (tm : Option (List (String × ThreadInfo))) :
    plan_stitches regions h q d tm
      = { plan_stitches regions h "balanced" d tm with quality_preset := q } := by
  have hL : plan_stitches regions h q d tm
      = ((groupByColor regions).foldl
          (planFoldStep tm (presetDensity .balanced * d) (presetUnderlay .balanced))
          { layers := [], total_stitches := 0, estimated_time_minutes := 0,
            quality_preset := q, hoop_size := h, warnings := [] }).finalize := by
    unfold plan_stitches
    rw [hq]
    rfl
  have hR : plan_stitches regions h "balanced" d tm
      = ((groupByColor regions).foldl
          (planFoldStep tm (presetDensity .balanced * d) (presetUnderlay .balanced))
          { layers := [], total_stitches := 0, estimated_time_minutes := 0,
            quality_preset := "balanced", hoop_size := h, warnings := [] }).finalize := rfl
  have hfold := planFoldStep_qp tm (presetDensity .balanced * d)
    (presetUnderlay .balanced) (groupByColor regions)
    { layers := [], total_stitches := 0, estimated_time_minutes := 0,
      quality_preset := "balanced", hoop_size := h, warnings := [] } q
  rw [hL, hR, hfold, finalize_qp]

/-- An outline-type region used to show that planning still produces output
under unknown identifiers. -/
def regionC10 : Region :=
  { color_hex := "#00FF00"
    color_rgb := (0, 255, 0)
    region_type := "outline"
    contours := [[(0, 0), (100, 0)]]
    holes := []
    area_mm2 := 3
    perimeter_mm := 40
    principal_angle := 0
    bounding_box := (0, 0, 101, 1)
    aspect := 1
    compactness := 1 / 20
    centroid := (50, 0) }

/-- C10 amended: unknown hoop identifiers are silently replaced by 100x100
in preprocessing, and unknown quality presets are silently planned as
balanced (only the recorded preset string differs); the pipeline proceeds
and produces a plan instead of failing with an input error. -/
theorem C10_unknown_identifiers :
    (∀ s : String, HOOP_SPECS_keys.contains s = false →
      resolve_hoop_size s = "100x100") ∧
    (∀ q : String, QualityPreset.ofString q = none →
      ∀ (regions : List Region) (h : String) (d : ℚ)
        (tm : Option (List (String × ThreadInfo))),
        plan_stitches regions h q d tm
          = { plan_stitches regions h "balanced" d tm with quality_preset := q }) := by
  constructor
  · intro s hs
    rw [resolve_hoop_size, if_neg]
    simpa using hs
  · intro q hq regions h d tm
    exact plan_stitches_preset_congr q hq regions h d tm

/-- C10 witness: the fallbacks applied at the unknown hoop 50x50 and the
unknown preset string mega. -/
theorem C10_unknown_identifiers_witness :
    HOOP_SPECS_keys.contains "50x50" = false ∧
    resolve_hoop_size "50x50" = "100x100" ∧
    QualityPreset.ofString "mega" = none ∧
    plan_stitches [regionC10] "100x100" "mega" 1 none
      = { plan_stitches [regionC10] "100x100" "balanced" 1 none with
          quality_preset := "mega" } :=
  ⟨by decide, C10_unknown_identifiers.1 "50x50" (by decide), by decide,
    C10_unknown_identifiers.2 "mega" (by decide) [regionC10] "100x100" 1 none⟩

/-- C10 counterexample: with the unknown hoop 50x50 and the unknown preset
mega the pipeline does not reject the input: preprocessing silently uses
100x100 and planning emits a normal one-layer StitchPlan with the same
totals as the balanced preset. -/
theorem C10_counterexample :
    QualityPreset.ofString "mega" = none ∧
    resolve_hoop_size "50x50" = "100x100" ∧
    (plan_stitches [regionC10] "100x100" "mega" 1 none).layers.length = 1 ∧
    (plan_stitches [regionC10] "100x100" "mega" 1 none).total_stitches
      = (plan_stitches [regionC10] "100x100" "balanced" 1 none).total_stitches := by
  have hops : plan_region_operations regionC10 (presetDensity .balanced * 1)
      (presetUnderlay .balanced) = [create_outline_operation regionC10] := by
    simp [plan_region_operations, regionC10]
  have hlayer : (buildLayer "#00FF00" [regionC10] none (presetDensity .balanced * 1)
      (presetUnderlay .balanced)).operations = [create_outline_operation regionC10] := by
    simp only [buildLayer, List.foldl_cons, List.foldl_nil]
    rw [(foldl_add_operation_spec _ _).2, hops]
    rfl
  have hplan : plan_stitches [regionC10] "100x100" "mega" 1 none
      = (planFoldStep none (presetDensity .balanced * 1) (presetUnderlay .balanced)
          { layers := [], total_stitches := 0, estimated_time_minutes := 0,
            quality_preset := "mega", hoop_size := "100x100", warnings := [] }
          ("#00FF00", [regionC10])).finalize := rfl
  refine ⟨by decide, by decide, ?_, ?_⟩
  · rw [hplan, (finalize_spec _).1]
    simp only [planFoldStep]
    have hne : (buildLayer "#00FF00" [regionC10] none (presetDensity .balanced * 1)
        (presetUnderlay .balanced)).operations.isEmpty = false := by
      rw [hlayer]
      rfl
    rw [hne]
    simp [StitchPlan.add_layer]
  · rw [plan_stitches_preset_congr "mega" (by decide) [regionC10] "100x100" 1 none]
